import Mathlib

/-!
# Shallow embedding of the Driver-app fare/dispatch core

This file embeds, in Lean 4, the fare-computation and driver-dispatch core of
the ride-hailing driver application:

* `src/services/FareCalculationService.ts` — the fare engine
  (`calculateAndStoreTripFare`, `calculateRegularFare`, `calculateRentalFare`,
  `calculateOutstationFare`, `calculateAirportFare`, `calculateDeadheadCharges`);
* `src/unnamed/part_002` — the dispatch edge function
  (`handleNotifyDrivers`, `handleAcceptRide`, `handleUpdateRideStatus`,
  `findNearbyDrivers`, `sendDriverNotification`);
* `src/supabase/functions/find-nearby-drivers/index.ts` — the standalone
  nearby-driver search (`handleFindNearbyDrivers`).

Modelling conventions:

* JavaScript numbers are embedded as rationals (`ℚ`): all the arithmetic the
  claims mention (per-km products, 5% / 18% GST, halving, rounding to one
  decimal) is exact decimal arithmetic, which `ℚ` represents faithfully;
  floating-point rounding error is outside the scope of the claims.
* Timestamps are integers (milliseconds since epoch), as produced by
  `Date.getTime()` in the source.
* The Haversine distance `calculateDistance` (trigonometry over real numbers)
  is abstracted as an explicit function parameter
  `dist : ℚ → ℚ → ℚ → ℚ → ℚ` (lat1 lon1 lat2 lon2 ↦ km): every definition that
  calls it in the source takes it as an argument, preserving the call
  structure while keeping the development executable.  Concrete instantiations
  in witnesses use inputs on which the value of the real Haversine formula is
  known exactly (e.g. the distance from a point to itself is 0).
* The external record store is embedded as explicit state: a structure of
  table rows passed in and returned.  Database queries (`.eq`, `.is`,
  `.order`, `.limit`, conditional updates) become list filters/maps; an
  `insert` that the store refuses is modelled by a boolean failure flag on the
  store, since the source only branches on whether the insert reported an
  error.
* Fallible code returns `Except String` / `Option`; a thrown JS exception that
  the source catches is an `Except.error` value.
-/

/-! ## Numeric helpers (JS `Math` functions on rationals) -/

/-- JS `Math.round`: round half away from zero toward positive infinity. -/
def jsRound (x : ℚ) : ℤ := ⌊x + 1/2⌋

/-- JS `Math.ceil`. -/
def jsCeil (x : ℚ) : ℤ := ⌈x⌉

/-- Character-list version of "starts with". -/
def startsWithChars : List Char → List Char → Bool
  | [], _ => true
  | _ :: _, [] => false
  | p :: ps, c :: cs => p == c && startsWithChars ps cs

/-- Character-list version of "contains the pattern as a contiguous run". -/
def containsChars (pat : List Char) : List Char → Bool
  | [] => pat.isEmpty
  | c :: cs => startsWithChars pat (c :: cs) || containsChars pat cs

/-- JS `String.prototype.includes`, over the character lists of the two
strings. -/
def jsIncludes (s pat : String) : Bool := containsChars pat.data s.data

/-- JS `String.prototype.toLowerCase` (character-wise lowering over the
character list; the zone names involved are plain ASCII). -/
def jsToLower (s : String) : String := String.mk (s.data.map Char.toLower)

/-! ## Data model

Row shapes follow the `Database` interface declarations in the source and the
columns each query actually reads. String-typed columns that no claim inspects
(addresses, customer names, phone numbers) are omitted. -/

/-- A row of the `zones` table (`FareCalculationService` reads `name`,
`center_latitude`, `center_longitude`, `radius_km`; rows are fetched with
`.eq('is_active', true)`). -/
structure Zone where
  name : String
  center_latitude : ℚ
  center_longitude : ℚ
  radius_km : ℚ
  is_active : Bool
deriving Repr, DecidableEq

/-- A row of the `fare_matrix` table. -/
structure FareMatrix where
  booking_type : String
  vehicle_type : String
  base_fare : ℚ
  per_km_rate : ℚ
  surge_multiplier : ℚ
  platform_fee : ℚ
  minimum_fare : ℚ
  is_active : Bool
  created_at : ℤ
deriving Repr, DecidableEq

/-- A row of the `rental_fares` table. -/
structure RentalFare where
  vehicle_type : String
  duration_hours : ℚ
  base_fare : ℚ
  km_included : ℚ
  extra_km_rate : ℚ
  package_name : String
  is_popular : Bool
  is_active : Bool
deriving Repr, DecidableEq

/-- A row of the `outstation_fares` table. -/
structure OutstationFare where
  vehicle_type : String
  base_fare : ℚ
  per_km_rate : ℚ
  driver_allowance_per_day : ℚ
  daily_km_limit : ℚ
  is_active : Bool
  created_at : ℤ
deriving Repr, DecidableEq

/-- A row of the `airport_fares` table. -/
structure AirportFare where
  vehicle_type : String
  hosur_to_airport_fare : ℚ
  airport_to_hosur_fare : ℚ
  is_active : Bool
  created_at : ℤ
deriving Repr, DecidableEq

/-- A row of the `rides` table (the columns the embedded operations read or
write). -/
structure Ride where
  id : String
  customer_id : String
  driver_id : Option String
  pickup_latitude : ℚ
  pickup_longitude : ℚ
  destination_latitude : ℚ
  destination_longitude : ℚ
  booking_type : String
  vehicle_type : String
  status : String
  fare_amount : Option ℚ
  distance_km : Option ℚ
  duration_minutes : Option ℚ
  selected_hours : Option ℚ
  scheduled_time : Option ℤ
deriving Repr, DecidableEq

/-- A row of the `drivers` table, with the `vehicles!fk_drivers_vehicle` join
the dispatch queries request (`none` when the driver has no vehicle row). -/
structure Driver where
  id : String
  user_id : String
  status : String
  is_verified : Bool
  vehicle_type : Option String
deriving Repr, DecidableEq

/-- A row of the `live_locations` table. -/
structure LiveLocation where
  user_id : String
  latitude : ℚ
  longitude : ℚ
  updated_at : ℤ
deriving Repr, DecidableEq

/-- A row of the `trip_completions` table (the columns the insert in
`calculateAndStoreTripFare` writes, minus the textual duplicates of the
breakdown). -/
structure TripCompletion where
  ride_id : String
  booking_type : String
  vehicle_type : String
  actual_distance_km : ℚ
  actual_duration_minutes : ℚ
  total_fare : ℚ
deriving Repr, DecidableEq

/-- A row of the `notifications` table as written by `sendDriverNotification`
(`user_id`, `type`, and the `ride_id` / `vehicle_type` / `distance` fields of
the structured `data` payload; the free-text title/message are elided). -/
structure NotificationRow where
  user_id : String
  type : String
  ride_id : String
  ride_vehicle_type : String
  distance : ℚ
deriving Repr, DecidableEq

/-- The `details` sub-record of a fare breakdown (optional fields mirror the
TypeScript interface; each policy fills only its own diagnostics). -/
structure FareDetails where
  actual_distance_km : ℚ
  actual_duration_minutes : ℚ
  per_km_rate : ℚ
  base_km_included : Option ℚ := none
  extra_km : Option ℚ := none
  surge_multiplier : Option ℚ := none
  platform_fee_flat : Option ℚ := none
  zone_detected : Option String := none
  is_inner_zone : Option Bool := none
  days_calculated : Option ℤ := none
  daily_km_limit : Option ℚ := none
  within_allowance : Option Bool := none
  package_name : Option String := none
  total_km_travelled : Option ℚ := none
  km_allowance : Option ℚ := none
  direction : Option String := none
deriving Repr, DecidableEq

/-- The `FareBreakdown` output value object of `FareCalculationService`. -/
structure FareBreakdown where
  booking_type : String
  vehicle_type : String
  base_fare : ℚ
  distance_fare : ℚ
  time_fare : ℚ
  surge_charges : ℚ
  deadhead_charges : ℚ
  platform_fee : ℚ
  gst_on_charges : ℚ
  gst_on_platform_fee : ℚ
  extra_km_charges : ℚ
  driver_allowance : ℚ
  total_fare : ℚ
  details : FareDetails
deriving Repr, DecidableEq

/-! ## Query helpers -/

/-- Denotation of `.order('created_at', ascending false)` followed by taking
the first row: the row with the greatest `created_at` key, the earliest row
winning ties. -/
def firstByLatest {α : Type} (key : α → ℤ) : List α → Option α
  | [] => none
  | x :: xs =>
    match firstByLatest key xs with
    | none => some x
    | some y => if key y > key x then some y else some x

/-! ## DeadheadCalculator (`calculateDeadheadCharges`) -/

/-- Result record of `calculateDeadheadCharges`. -/
structure DeadheadResult where
  deadheadCharges : ℚ
  zoneDetected : String
  isInnerZone : Bool
deriving Repr, DecidableEq

/-- The inner-zone name predicate of `calculateDeadheadCharges`:
`zone.name.toLowerCase().includes('inner') || zone.name.toLowerCase().includes('ring')`. -/
def isInnerZoneName (name : String) : Bool :=
  jsIncludes (jsToLower name) "inner" || jsIncludes (jsToLower name) "ring"

/-- `FareCalculationService.calculateDeadheadCharges` (source lines 773-836):
find the first zone whose lower-cased name contains "inner" or "ring"; if
none, no deadhead charges; if the drop point is within its radius (distance to
center at most `radius_km`), no charges; otherwise charge half the distance
from the drop point to the zone boundary times the per-km rate.  `dist` is the
Haversine `calculateDistance` abstracted as a function parameter. -/
def calculateDeadheadCharges (dist : ℚ → ℚ → ℚ → ℚ → ℚ)
    (dropLat dropLng perKmRate : ℚ) (zones : List Zone) : DeadheadResult :=
  match zones.find? (fun z => isInnerZoneName z.name) with
  | none => { deadheadCharges := 0, zoneDetected := "Unknown", isInnerZone := false }
  | some innerZone =>
    let distanceToInnerCenter :=
      dist dropLat dropLng innerZone.center_latitude innerZone.center_longitude
    if distanceToInnerCenter ≤ innerZone.radius_km then
      { deadheadCharges := 0, zoneDetected := innerZone.name, isInnerZone := true }
    else
      let distanceToInnerBoundary := distanceToInnerCenter - innerZone.radius_km
      { deadheadCharges := (distanceToInnerBoundary / 2) * perKmRate,
        zoneDetected := "Outside Inner Zone", isInnerZone := false }

/-! ## Regular fare (`calculateRegularFare`)

The source function selects the active `(booking_type = regular, vehicle_type)`
fare-matrix row (most recent first) and computes the components in statement
order.  At line 388 it evaluates

`const chargesSubtotal = validBaseFare + validDistanceFare + validDeadheadCharges + validSurgeCharges;`

but the four `const` bindings `validBaseFare` .. `validGstOnCharges` are only
declared at lines 408-413 of the same block, and line 423 likewise reads
`gstOnPlatformFee` before its declaration at line 429.  Under ECMAScript
block-scoping semantics (which TypeScript enforces), reading a `const` binding
before its declaration throws a `ReferenceError` (temporal dead zone), which
the `try/catch` in `calculateAndStoreTripFare` converts into a failed result.
The embedding follows statement order and yields that error. -/

/-- Error value for the use-before-declaration at line 388 of
`FareCalculationService.ts`. -/
def tdzReferenceError : String :=
  "ReferenceError: cannot access validBaseFare before initialization"

/-- `FareCalculationService.calculateRegularFare` (source lines 193-472),
embedded with ECMAScript temporal-dead-zone semantics: after computing
`extraKm`, `distanceFare`, the deadhead result and `surgeCharges`, the next
statement (line 388) reads `validBaseFare` before its declaration and throws. -/
def calculateRegularFare (dist : ℚ → ℚ → ℚ → ℚ → ℚ) (fareMatrixTable : List FareMatrix)
    (vehicleType : String) (actualDistanceKm : ℚ)
    (dropLat dropLng : ℚ) (zones : List Zone) : Except String FareBreakdown :=
  let fareMatrices := (fareMatrixTable.filter (fun m =>
    m.booking_type == "regular" && m.vehicle_type == vehicleType && m.is_active))
  match firstByLatest (fun m => m.created_at) fareMatrices with
  | none => Except.error "Fare configuration not found for this vehicle type"
  | some fareMatrix =>
    -- `parseFloat` on the numeric DB value is the identity in the rational model
    let platformFee := fareMatrix.platform_fee
    let baseFare := fareMatrix.base_fare          -- `Number(x) || 0` is the identity on 0 as well
    let baseKmIncluded : ℚ := 4
    let perKmRate := fareMatrix.per_km_rate
    -- `Number(fareMatrix.surge_multiplier) || 1`: a zero multiplier is falsy and becomes 1
    let surgeMultiplier := if fareMatrix.surge_multiplier == 0 then 1 else fareMatrix.surge_multiplier
    let extraKm := max 0 (actualDistanceKm - baseKmIncluded)
    let distanceFare := extraKm * perKmRate
    let deadheadResult := calculateDeadheadCharges dist dropLat dropLng perKmRate zones
    let deadheadCharges := deadheadResult.deadheadCharges
    let subtotalBeforeSurge := baseFare + distanceFare + deadheadCharges
    let surgeCharges := subtotalBeforeSurge * (surgeMultiplier - 1)
    -- line 388: `validBaseFare` and companions are read here but declared only
    -- at lines 408-413; ReferenceError (temporal dead zone)
    let _ := platformFee
    let _ := surgeCharges
    Except.error tdzReferenceError

/-- Modelled from the spec: the §4.5 Regular-fare formulas that
`calculateRegularFare` was intended to implement (distance fare beyond 4
included km, surge on the pre-fee subtotal, 5% GST on ride charges, 18% GST on
the platform fee, total = sum of the seven components).  Used to exhibit the
value the specification assigns to the C1 scenario. -/
def regularFareSpecTotal (baseFare perKmRate actualDistanceKm surgeMultiplier
    deadheadCharges platformFee : ℚ) : ℚ :=
  let distanceFare := max 0 (actualDistanceKm - 4) * perKmRate
  let surgeCharges := (baseFare + distanceFare + deadheadCharges) * (surgeMultiplier - 1)
  let gstOnCharges := (5/100) * (baseFare + distanceFare + deadheadCharges + surgeCharges)
  let gstOnPlatformFee := (18/100) * platformFee
  baseFare + distanceFare + surgeCharges + deadheadCharges + platformFee +
    gstOnCharges + gstOnPlatformFee

/-! ## Rental fare (`calculateRentalFare`) -/

/-- `FareCalculationService.calculateRentalFare` (source lines 477-564). -/
def calculateRentalFare (rentalFareTable : List RentalFare) (vehicleType : String)
    (actualDistanceKm actualDurationMinutes selectedHours : ℚ) :
    Except String FareBreakdown :=
  let rows := rentalFareTable.filter (fun r =>
    r.vehicle_type == vehicleType && r.duration_hours == selectedHours && r.is_active)
  -- `.order('is_popular', ascending false).limit(1)`: a popular row first
  match (rows.filter (fun r => r.is_popular)) ++ (rows.filter (fun r => !r.is_popular)) with
  | [] => Except.error "Rental fare configuration not found"
  | rentalFare :: _ =>
    let baseFare := rentalFare.base_fare
    let kmIncluded := rentalFare.km_included
    let extraKmRate := rentalFare.extra_km_rate
    let extraKmCharges := if actualDistanceKm > kmIncluded
      then (actualDistanceKm - kmIncluded) * extraKmRate else 0
    let withinAllowance := !(actualDistanceKm > kmIncluded)
    let totalFare := baseFare + extraKmCharges
    Except.ok {
      booking_type := "rental", vehicle_type := vehicleType,
      base_fare := baseFare, distance_fare := 0, time_fare := 0,
      surge_charges := 0, deadhead_charges := 0, platform_fee := 0,
      gst_on_charges := 0, gst_on_platform_fee := 0,
      extra_km_charges := extraKmCharges, driver_allowance := 0,
      total_fare := totalFare,
      details := {
        actual_distance_km := actualDistanceKm,
        actual_duration_minutes := actualDurationMinutes,
        base_km_included := some kmIncluded,
        extra_km := some (max 0 (actualDistanceKm - kmIncluded)),
        per_km_rate := extraKmRate,
        within_allowance := some withinAllowance,
        package_name := some rentalFare.package_name } }

/-! ## Outstation fare (`calculateOutstationFare`) -/

/-- `FareCalculationService.calculateOutstationFare` (source lines 569-687).
`scheduledTime` and `now` are epoch-millisecond timestamps; the trip duration
in hours is `|now - start| / 3600000` as in the source. -/
def calculateOutstationFare (outstationFareTable : List OutstationFare)
    (vehicleType : String) (actualDistanceKm actualDurationMinutes : ℚ)
    (scheduledTime : Option ℤ) (now : ℤ) : Except String FareBreakdown :=
  let rows := outstationFareTable.filter (fun r =>
    r.vehicle_type == vehicleType && r.is_active)
  match firstByLatest (fun r => r.created_at) rows with
  | none => Except.error "Outstation fare configuration not found"
  | some outstationConfig =>
    let baseFare := outstationConfig.base_fare
    let perKmRate := outstationConfig.per_km_rate
    let driverAllowancePerDay := outstationConfig.driver_allowance_per_day
    let dailyKmLimit := outstationConfig.daily_km_limit
    let startTime := scheduledTime.getD now
    let durationHours : ℚ := |(now : ℚ) - (startTime : ℚ)| / 3600000
    let numberOfDays : ℤ := max 1 (jsCeil (durationHours / 24))
    let totalKmTravelled := actualDistanceKm * 2
    let totalKmAllowance := dailyKmLimit * (numberOfDays : ℚ)
    let driverAllowance := (numberOfDays : ℚ) * driverAllowancePerDay
    let kmFare := if totalKmTravelled ≤ totalKmAllowance
      then dailyKmLimit * (numberOfDays : ℚ) * perKmRate
      else totalKmTravelled * perKmRate
    let withinAllowance := totalKmTravelled ≤ totalKmAllowance
    let totalFare := baseFare + kmFare + driverAllowance
    Except.ok {
      booking_type := "outstation", vehicle_type := vehicleType,
      base_fare := baseFare, distance_fare := kmFare, time_fare := 0,
      surge_charges := 0, deadhead_charges := 0, platform_fee := 0,
      gst_on_charges := 0, gst_on_platform_fee := 0,
      extra_km_charges := 0, driver_allowance := driverAllowance,
      total_fare := totalFare,
      details := {
        actual_distance_km := actualDistanceKm,
        actual_duration_minutes := actualDurationMinutes,
        per_km_rate := perKmRate,
        days_calculated := some numberOfDays,
        daily_km_limit := some dailyKmLimit,
        within_allowance := some withinAllowance,
        total_km_travelled := some totalKmTravelled,
        km_allowance := some totalKmAllowance } }

/-- The day count of the outstation policy: `max(1, ceil(hoursSince(scheduled_time
or now) / 24))`, where the elapsed hours are `|now - start| / 3600000` over
epoch-millisecond timestamps as in `calculateOutstationFare`. -/
def outstationDays (scheduledTime : Option ℤ) (now : ℤ) : ℤ :=
  max 1 (jsCeil (|(now : ℚ) - ((scheduledTime.getD now : ℤ) : ℚ)| / 3600000 / 24))

/-! ## Airport fare (`calculateAirportFare`) -/

/-- The fixed Hosur city-center reference coordinate of
`calculateAirportFare`. -/
def hosurCenterLat : ℚ := 12.7401984

/-- Longitude of the fixed Hosur city-center reference coordinate. -/
def hosurCenterLng : ℚ := 77.824

/-- `FareCalculationService.calculateAirportFare` (source lines 692-768):
whichever endpoint is closer to the Hosur center is treated as the origin and
the corresponding flat fare applies. -/
def calculateAirportFare (dist : ℚ → ℚ → ℚ → ℚ → ℚ)
    (airportFareTable : List AirportFare) (vehicleType : String)
    (pickupLat pickupLng dropLat dropLng : ℚ) : Except String FareBreakdown :=
  let rows := airportFareTable.filter (fun r =>
    r.vehicle_type == vehicleType && r.is_active)
  match firstByLatest (fun r => r.created_at) rows with
  | none => Except.error "Airport fare configuration not found"
  | some airportConfig =>
    let pickupToCenter := dist pickupLat pickupLng hosurCenterLat hosurCenterLng
    let dropToCenter := dist dropLat dropLng hosurCenterLat hosurCenterLng
    let isHosurToAirport := pickupToCenter < dropToCenter
    let fare := if isHosurToAirport
      then airportConfig.hosur_to_airport_fare else airportConfig.airport_to_hosur_fare
    let direction := if isHosurToAirport then "Hosur to Airport" else "Airport to Hosur"
    Except.ok {
      booking_type := "airport", vehicle_type := vehicleType,
      base_fare := fare, distance_fare := 0, time_fare := 0,
      surge_charges := 0, deadhead_charges := 0, platform_fee := 0,
      gst_on_charges := 0, gst_on_platform_fee := 0,
      extra_km_charges := 0, driver_allowance := 0,
      total_fare := fare,
      details := {
        actual_distance_km := dist pickupLat pickupLng dropLat dropLng,
        actual_duration_minutes := 0,
        per_km_rate := 0,
        direction := some direction } }

/-! ## Fare persistence (`calculateAndStoreTripFare`) -/

/-- The slice of the record store `calculateAndStoreTripFare` touches.
`completionInsertFails` models the external store refusing the
`trip_completions` insert (the source only branches on whether the insert
reported an error). -/
structure FareStore where
  rides : List Ride
  zones : List Zone
  fare_matrix : List FareMatrix
  rental_fares : List RentalFare
  outstation_fares : List OutstationFare
  airport_fares : List AirportFare
  trip_completions : List TripCompletion
  completionInsertFails : Bool
deriving Repr, DecidableEq

/-- Result value of `calculateAndStoreTripFare`. -/
structure FareResult where
  success : Bool
  fareBreakdown : Option FareBreakdown
  error : Option String
deriving Repr, DecidableEq

/-- `FareCalculationService.calculateAndStoreTripFare` (source lines 45-188):
load the ride, load active zones, dispatch on `booking_type` to one fare
policy (a thrown policy error is caught and returned as a failed result),
insert the `trip_completions` row, and only after a successful insert update
the parent ride's `fare_amount` / `distance_km` / `duration_minutes`. -/
def calculateAndStoreTripFare (dist : ℚ → ℚ → ℚ → ℚ → ℚ) (now : ℤ)
    (store : FareStore) (rideId : String)
    (actualDistanceKm actualDurationMinutes : ℚ)
    (pickupLat pickupLng dropLat dropLng : ℚ) : FareResult × FareStore :=
  match store.rides.find? (fun r => r.id == rideId) with
  | none => ({ success := false, fareBreakdown := none, error := some "Ride not found" }, store)
  | some ride =>
    let zones := store.zones.filter (fun z => z.is_active)
    let computed : Except String FareBreakdown :=
      if ride.booking_type == "regular" then
        calculateRegularFare dist store.fare_matrix ride.vehicle_type actualDistanceKm
          dropLat dropLng zones
      else if ride.booking_type == "rental" then
        calculateRentalFare store.rental_fares ride.vehicle_type actualDistanceKm
          actualDurationMinutes (ride.selected_hours.getD 4)
      else if ride.booking_type == "outstation" then
        calculateOutstationFare store.outstation_fares ride.vehicle_type actualDistanceKm
          actualDurationMinutes ride.scheduled_time now
      else if ride.booking_type == "airport" then
        calculateAirportFare dist store.airport_fares ride.vehicle_type
          pickupLat pickupLng dropLat dropLng
      else Except.error "Invalid booking type"
    match computed with
    | Except.error e =>
      -- a thrown policy error reaches the catch block; "Invalid booking type"
      -- is returned directly; either way nothing was written
      ({ success := false, fareBreakdown := none, error := some e }, store)
    | Except.ok fareBreakdown =>
      if store.completionInsertFails then
        ({ success := false, fareBreakdown := none,
           error := some "Failed to store trip completion" }, store)
      else
        let completion : TripCompletion := {
          ride_id := rideId, booking_type := ride.booking_type,
          vehicle_type := ride.vehicle_type,
          actual_distance_km := actualDistanceKm,
          actual_duration_minutes := actualDurationMinutes,
          total_fare := fareBreakdown.total_fare }
        let rides2 := store.rides.map (fun r =>
          if r.id == rideId then
            { r with fare_amount := some fareBreakdown.total_fare,
                     distance_km := some actualDistanceKm,
                     duration_minutes := some actualDurationMinutes }
          else r)
        ({ success := true, fareBreakdown := some fareBreakdown, error := none },
         { store with trip_completions := store.trip_completions ++ [completion],
                      rides := rides2 })

/-! ## Dispatch store (`part_002` and `find-nearby-drivers/index.ts`) -/

/-- The slice of the record store the dispatch edge functions touch.
`notificationInsertFails` models the external store refusing notification
inserts. -/
structure DispatchStore where
  rides : List Ride
  drivers : List Driver
  live_locations : List LiveLocation
  notifications : List NotificationRow
  notificationInsertFails : Bool
deriving Repr, DecidableEq

/-- The most recent location of a user as computed by the map-building loop of
`findNearbyDrivers` in `part_002` (lines 614-620): later rows replace the kept
row only when strictly newer, so the result is the sample with maximal
`updated_at`, the earliest such row winning ties. -/
def latestLocationByTime : List LiveLocation → String → Option LiveLocation
  | [], _ => none
  | loc :: rest, u =>
    let r := latestLocationByTime rest u
    if loc.user_id == u then
      match r with
      | none => some loc
      | some l => if l.updated_at > loc.updated_at then some l else some loc
    else r

/-- `findNearbyDrivers` of `part_002` (lines 537-664), the dispatch-path
driver search: online verified drivers, joined with their latest location,
filtered by a 30-minute recency cutoff and the radius.  The `vehicleType`
parameter is accepted but — exactly as in the source — never used for
filtering.  Returns each kept driver with the location used. -/
def findNearbyDrivers (dist : ℚ → ℚ → ℚ → ℚ → ℚ) (now : ℤ)
    (drivers : List Driver) (liveLocations : List LiveLocation)
    (pickupLat pickupLng : ℚ) (vehicleType : String) (radiusKm : ℚ) :
    List (Driver × LiveLocation) :=
  let _ := vehicleType
  let onlineDrivers := drivers.filter (fun d => d.status == "online" && d.is_verified)
  let locs := liveLocations.filter (fun l =>
    onlineDrivers.any (fun d => d.user_id == l.user_id))
  onlineDrivers.filterMap (fun driver =>
    match latestLocationByTime locs driver.user_id with
    | none => none
    | some location =>
      let locationAge := now - location.updated_at
      if locationAge > 30 * 60 * 1000 then none
      else
        let distance := dist pickupLat pickupLng location.latitude location.longitude
        if distance ≤ radiusKm then some (driver, location) else none)

/-- The five response shapes of `handleNotifyDrivers` in `part_002`. -/
inductive NotifyResponse
  | rideNotFound
  | notRequested
  | noDriversAvailable
  | dispatched (driversFound notificationsSent : Nat)
deriving Repr, DecidableEq

/-- `sendDriverNotification` of `part_002` (lines 666-748): one notification
row per driver, carrying the ride context and a distance annotation. -/
def sendDriverNotification (dist : ℚ → ℚ → ℚ → ℚ → ℚ)
    (driver : Driver) (location : LiveLocation) (ride : Ride) : NotificationRow :=
  { user_id := driver.user_id, type := "ride_request", ride_id := ride.id,
    ride_vehicle_type := ride.vehicle_type,
    distance := dist ride.pickup_latitude ride.pickup_longitude
      location.latitude location.longitude }

/-- Set the status of every ride with the given id. -/
def setRideStatus (rides : List Ride) (rideId status : String) : List Ride :=
  rides.map (fun r => if r.id == rideId then { r with status := status } else r)

/-- `handleNotifyDrivers` of `part_002` (lines 133-283): load the ride; if its
status is not "requested", return success with no effect; otherwise search for
nearby drivers (15 km radius, the ride's vehicle type), mark the ride
`no_drivers_available` when none are found (or when every notification insert
fails), and otherwise create one notification row per driver. -/
def handleNotifyDrivers (dist : ℚ → ℚ → ℚ → ℚ → ℚ) (now : ℤ)
    (store : DispatchStore) (rideId : String) : NotifyResponse × DispatchStore :=
  match store.rides.find? (fun r => r.id == rideId) with
  | none => (NotifyResponse.rideNotFound, store)
  | some ride =>
    if ride.status != "requested" then (NotifyResponse.notRequested, store)
    else
      let nearbyDrivers := findNearbyDrivers dist now store.drivers store.live_locations
        ride.pickup_latitude ride.pickup_longitude ride.vehicle_type 15
      match nearbyDrivers with
      | [] =>
        (NotifyResponse.noDriversAvailable,
         { store with rides := setRideStatus store.rides ride.id "no_drivers_available" })
      | _ =>
        let newNotifications := if store.notificationInsertFails then []
          else nearbyDrivers.map (fun dl => sendDriverNotification dist dl.1 dl.2 ride)
        let notificationsCreated := newNotifications.length
        let store1 := { store with
          notifications := store.notifications ++ newNotifications }
        let store2 := if notificationsCreated == 0 then
            { store1 with rides := setRideStatus store1.rides ride.id "no_drivers_available" }
          else store1
        (NotifyResponse.dispatched nearbyDrivers.length notificationsCreated, store2)

/-- Response of `handleAcceptRide`: the updated ride on success, `conflict`
(HTTP 409) when the conditional update matched no row. -/
inductive AcceptResponse
  | accepted (ride : Ride)
  | conflict
deriving Repr, DecidableEq

/-- The row predicate of the conditional update in `handleAcceptRide`:
`id = ride_id AND status = 'requested' AND driver_id IS NULL`. -/
def acceptPred (rideId : String) (r : Ride) : Bool :=
  r.id == rideId && r.status == "requested" && r.driver_id == none

/-- `handleAcceptRide` of `part_002` (lines 285-390): one atomic conditional
update assigning the driver and setting status "accepted" where the ride is
still requested and unassigned; zero matched rows means conflict and no
change; on success the driver's own status is flipped to "busy" as a
best-effort secondary update. -/
def handleAcceptRide (store : DispatchStore) (rideId driverId : String) :
    AcceptResponse × DispatchStore :=
  match store.rides.filter (acceptPred rideId) with
  | [] => (AcceptResponse.conflict, store)
  | r :: _ =>
    let updatedRide := { r with driver_id := some driverId, status := "accepted" }
    let rides2 := store.rides.map (fun x =>
      if acceptPred rideId x then { x with driver_id := some driverId, status := "accepted" }
      else x)
    let drivers2 := store.drivers.map (fun d =>
      if d.id == driverId then { d with status := "busy" } else d)
    (AcceptResponse.accepted updatedRide,
     { store with rides := rides2, drivers := drivers2 })

/-- `handleUpdateRideStatus` of `part_002` (lines 392-455): set the ride's
status to the requested value unconditionally (no guard on the current
status); when the new status is "completed" or "cancelled" and a driver id was
sent, flip that driver back to "online".  Returns the updated ride, or `none`
when no ride row matched. -/
def handleUpdateRideStatus (store : DispatchStore) (rideId status : String)
    (driverId : Option String) : Option Ride × DispatchStore :=
  let rides2 := setRideStatus store.rides rideId status
  match rides2.find? (fun r => r.id == rideId) with
  | none => (none, store)
  | some updatedRide =>
    let drivers2 :=
      match driverId with
      | some d =>
        if status == "completed" || status == "cancelled" then
          store.drivers.map (fun dr => if dr.id == d then { dr with status := "online" } else dr)
        else store.drivers
      | none => store.drivers
    (some updatedRide, { store with rides := rides2, drivers := drivers2 })

/-! ## Standalone nearby-driver search (`find-nearby-drivers/index.ts`) -/

/-- One element of the `drivers` array returned by `handleFindNearbyDrivers`
(the fields the claims inspect). -/
structure NearbyDriver where
  driver_id : String
  user_id : String
  vehicle_type : Option String
  distance_km : ℚ
  eta_minutes : ℤ
deriving Repr, DecidableEq

/-- The most recent location per user as computed by the map-building loop of
`handleFindNearbyDrivers` (lines 379-384): the query returns rows ordered by
`updated_at` descending and the loop keeps the first row seen per user, so the
kept row is the first one for that user in the (descending-ordered) list. -/
def latestLocationFirst (locs : List LiveLocation) (u : String) : Option LiveLocation :=
  locs.find? (fun l => l.user_id == u)

/-- The vehicle-type test of `handleFindNearbyDrivers` (line 414):
`driver.vehicles?.vehicle_type !== vehicle_type` is false for a driver with no
vehicle row (`undefined` never equals a string). -/
def vehicleTypeMatches (d : Driver) (vt : String) : Bool :=
  match d.vehicle_type with
  | some v => v == vt
  | none => false

/-- Insertion step of the final `sort((a, b) => a.distance_km - b.distance_km)`. -/
def insertByDistance (x : NearbyDriver) : List NearbyDriver → List NearbyDriver
  | [] => [x]
  | y :: ys => if x.distance_km ≤ y.distance_km then x :: y :: ys
      else y :: insertByDistance x ys

/-- Denotation of the final ascending sort by `distance_km` (insertion sort;
any sorting algorithm is a valid denotation of the JS comparator sort). -/
def sortByDistance : List NearbyDriver → List NearbyDriver
  | [] => []
  | x :: xs => insertByDistance x (sortByDistance xs)

/-- `handleFindNearbyDrivers` of `find-nearby-drivers/index.ts`
(lines 138-519), the filtering pipeline (steps 2-6): online verified drivers,
latest location per driver, 15-minute recency cutoff, vehicle-type filter
(skipped for "any"), radius test, distance rounded to one decimal with
`eta_minutes = round(distance * 3)`, sorted ascending by `distance_km`.
`liveLocations` stands for the location query result, ordered by `updated_at`
descending as the query requests. -/
def handleFindNearbyDrivers (dist : ℚ → ℚ → ℚ → ℚ → ℚ) (now : ℤ)
    (drivers : List Driver) (liveLocations : List LiveLocation)
    (pickupLat pickupLng : ℚ) (vehicleType : String) (radiusKm : ℚ) :
    List NearbyDriver :=
  let onlineDrivers := drivers.filter (fun d => d.status == "online" && d.is_verified)
  let locs := liveLocations.filter (fun l =>
    onlineDrivers.any (fun d => d.user_id == l.user_id))
  let nearbyDrivers := onlineDrivers.filterMap (fun driver =>
    match latestLocationFirst locs driver.user_id with
    | none => none
    | some location =>
      if now - location.updated_at > 15 * 60 * 1000 then none
      else if vehicleType != "any" && !vehicleTypeMatches driver vehicleType then none
      else if dist pickupLat pickupLng location.latitude location.longitude ≤ radiusKm then
        some { driver_id := driver.id, user_id := driver.user_id,
               vehicle_type := driver.vehicle_type,
               distance_km :=
                 (jsRound (dist pickupLat pickupLng location.latitude location.longitude * 10) : ℚ) / 10,
               eta_minutes :=
                 jsRound (dist pickupLat pickupLng location.latitude location.longitude * 3) }
      else none)
  sortByDistance nearbyDrivers

/-! ## Ride status ranking

The spec's monotonic lifecycle order
requested → accepted → driver_arrived → in_progress → completed. -/

/-- Position of a ride status in the monotonic lifecycle sequence of the spec
(`cancelled` is the always-allowed escape and is ranked last). -/
def statusRank : String → Nat
  | "requested" => 0
  | "accepted" => 1
  | "driver_arrived" => 2
  | "in_progress" => 3
  | "completed" => 4
  | _ => 5

/-! ## Concrete fixtures

Concrete rows and stores used to evaluate the embedded operations at specific
inputs.  `distZero` is used only in scenarios where every coordinate involved
is the same point, where the Haversine distance is exactly 0. -/

/-- A distance function that is constantly 0 — the exact value of the
Haversine formula when the two points coincide, which is the case in every
scenario it is applied to below. -/
def distZero : ℚ → ℚ → ℚ → ℚ → ℚ := fun _ _ _ _ => 0

/-- The active regular/sedan fare-matrix row of the C1 scenario
(base 50, 12/km, surge ×1, platform fee 10). -/
def fmSedan : FareMatrix :=
  { booking_type := "regular", vehicle_type := "sedan", base_fare := 50,
    per_km_rate := 12, surge_multiplier := 1, platform_fee := 10,
    minimum_fare := 0, is_active := true, created_at := 0 }

/-- A ride row template (regular sedan ride at the origin). -/
def baseRide : Ride :=
  { id := "ride-1", customer_id := "cust-1", driver_id := none,
    pickup_latitude := 0, pickup_longitude := 0,
    destination_latitude := 0, destination_longitude := 0,
    booking_type := "regular", vehicle_type := "sedan", status := "requested",
    fare_amount := none, distance_km := none, duration_minutes := none,
    selected_hours := none, scheduled_time := none }

/-- Fare store of the C1 scenario: one in-progress regular sedan ride and the
C1 fare-matrix row. -/
def storeC1 : FareStore :=
  { rides := [{ baseRide with status := "in_progress" }], zones := [],
    fare_matrix := [fmSedan], rental_fares := [], outstation_fares := [],
    airport_fares := [], trip_completions := [], completionInsertFails := false }

/-- Dispatch store of the C2 scenario: a single requested, unassigned ride. -/
def storeC2 : DispatchStore :=
  { rides := [baseRide], drivers := [], live_locations := [],
    notifications := [], notificationInsertFails := false }

/-- The online, verified hatchback driver of the C3 scenario. -/
def driverC3 : Driver :=
  { id := "drv-3", user_id := "user-3", status := "online",
    is_verified := true, vehicle_type := some "hatchback" }

/-- The fresh location sample of the C3 driver, at the ride's pickup point. -/
def locC3 : LiveLocation :=
  { user_id := "user-3", latitude := 0, longitude := 0, updated_at := 0 }

/-- Dispatch store of the C3 scenario: a requested sedan ride and one nearby
online verified driver whose vehicle is a hatchback. -/
def storeC3 : DispatchStore :=
  { rides := [baseRide], drivers := [driverC3], live_locations := [locC3],
    notifications := [], notificationInsertFails := false }

/-- Dispatch store of the C4 scenario: the ride is already accepted. -/
def storeC4 : DispatchStore :=
  { rides := [{ baseRide with status := "accepted", driver_id := some "drv-9" }],
    drivers := [driverC3], live_locations := [locC3],
    notifications := [], notificationInsertFails := false }

/-- The active outstation/sedan configuration row of the C5 scenario
(base 500, 12/km, 300/day allowance, 300 km/day). -/
def osSedan : OutstationFare :=
  { vehicle_type := "sedan", base_fare := 500, per_km_rate := 12,
    driver_allowance_per_day := 300, daily_km_limit := 300,
    is_active := true, created_at := 0 }

/-- The inner-ring zone of the C6 boundary scenario (radius 5 km). -/
def zoneInner : Zone :=
  { name := "Inner Ring", center_latitude := 0, center_longitude := 0,
    radius_km := 5, is_active := true }

/-- A distance function that is constantly 5 — used for the C6 boundary
witness, where the drop point sits exactly on the inner-zone boundary. -/
def distFive : ℚ → ℚ → ℚ → ℚ → ℚ := fun _ _ _ _ => 5

/-- The online, verified driver of the C7 scenario. -/
def driverC7 : Driver :=
  { id := "drv-7", user_id := "user-7", status := "online",
    is_verified := true, vehicle_type := some "sedan" }

/-- The stale location sample of the C7 driver (16 minutes 40 seconds old at
query time `now = 1000000`), at the pickup point itself. -/
def locC7 : LiveLocation :=
  { user_id := "user-7", latitude := 0, longitude := 0, updated_at := 0 }

/-- The two drivers of the C8 scenario. -/
def driversC8 : List Driver :=
  [{ id := "drv-a", user_id := "user-a", status := "online",
     is_verified := true, vehicle_type := some "sedan" },
   { id := "drv-b", user_id := "user-b", status := "online",
     is_verified := true, vehicle_type := some "sedan" }]

/-- Fresh location samples for both C8 drivers, both exactly at the pickup
point, so both Haversine distances are exactly 0. -/
def locationsC8 : List LiveLocation :=
  [{ user_id := "user-a", latitude := 0, longitude := 0, updated_at := 0 },
   { user_id := "user-b", latitude := 0, longitude := 0, updated_at := 0 }]

/-- The `NearbyDriver` entry the C7 driver would produce were it not excluded
by the recency cutoff. -/
def ndC7 : NearbyDriver :=
  { driver_id := "drv-7", user_id := "user-7", vehicle_type := some "sedan",
    distance_km := 0, eta_minutes := 0 }

/-- The first `NearbyDriver` entry of the C8 scenario result. -/
def ndC8 : NearbyDriver :=
  { driver_id := "drv-a", user_id := "user-a", vehicle_type := some "sedan",
    distance_km := 0, eta_minutes := 0 }

/-- The completed ride of the C9 scenario. -/
def rideC9 : Ride :=
  { baseRide with id := "ride-9", status := "completed", driver_id := some "drv-9" }

/-- Dispatch store of the C9 scenario. -/
def storeC9 : DispatchStore :=
  { rides := [rideC9], drivers := [], live_locations := [],
    notifications := [], notificationInsertFails := false }

/-- The in-progress outstation ride of the C10 scenario. -/
def rideC10 : Ride :=
  { baseRide with
    id := "ride-10"
    booking_type := "outstation"
    status := "in_progress"
    driver_id := some "drv-1" }

/-- Fare store of the C10 scenario (one outstation ride, failing insert). -/
def storeC10 : FareStore :=
  { rides := [rideC10],
    zones := [], fare_matrix := [], rental_fares := [],
    outstation_fares := [osSedan], airport_fares := [],
    trip_completions := [], completionInsertFails := true }

/-! ## Helper lemmas -/

theorem mem_insertByDistance (x a : NearbyDriver) (l : List NearbyDriver) :
    a ∈ insertByDistance x l ↔ a = x ∨ a ∈ l := by
  induction l with
  | nil => simp [insertByDistance]
  | cons y ys ih =>
    by_cases h : x.distance_km ≤ y.distance_km
    · simp only [insertByDistance, if_pos h, List.mem_cons]
    · simp only [insertByDistance, if_neg h, List.mem_cons, ih]
      tauto

theorem mem_sortByDistance (a : NearbyDriver) (l : List NearbyDriver) :
    a ∈ sortByDistance l ↔ a ∈ l := by
  induction l with
  | nil => simp [sortByDistance]
  | cons x xs ih =>
    simp only [sortByDistance, mem_insertByDistance, ih, List.mem_cons]

theorem pairwise_insertByDistance (x : NearbyDriver) (l : List NearbyDriver)
    (h : l.Pairwise (fun a b => a.distance_km ≤ b.distance_km)) :
    (insertByDistance x l).Pairwise (fun a b => a.distance_km ≤ b.distance_km) := by
  induction l with
  | nil => simp [insertByDistance]
  | cons y ys ih =>
    rw [List.pairwise_cons] at h
    by_cases hxy : x.distance_km ≤ y.distance_km
    · simp only [insertByDistance, if_pos hxy]
      refine List.Pairwise.cons ?_ (List.Pairwise.cons h.1 h.2)
      intro b hb
      rcases List.mem_cons.mp hb with rfl | hb
      · exact hxy
      · exact le_trans hxy (h.1 b hb)
    · simp only [insertByDistance, if_neg hxy]
      refine List.Pairwise.cons ?_ (ih h.2)
      intro b hb
      rcases (mem_insertByDistance x b ys).mp hb with rfl | hb
      · exact le_of_not_le hxy
      · exact h.1 b hb

theorem pairwise_sortByDistance (l : List NearbyDriver) :
    (sortByDistance l).Pairwise (fun a b => a.distance_km ≤ b.distance_km) := by
  induction l with
  | nil => simp [sortByDistance]
  | cons x xs ih => exact pairwise_insertByDistance x _ ih

theorem latestLocationFirst_mem {locs : List LiveLocation} {u : String}
    {loc : LiveLocation} (h : latestLocationFirst locs u = some loc) :
    loc ∈ locs ∧ loc.user_id = u := by
  unfold latestLocationFirst at h
  refine ⟨List.mem_of_find?_eq_some h, ?_⟩
  have := List.find?_some h
  simpa using this

theorem setRideStatus_status {rides : List Ride} {rideId status : String} {r : Ride}
    (hr : r ∈ setRideStatus rides rideId status) (hid : r.id = rideId) :
    r.status = status := by
  unfold setRideStatus at hr
  obtain ⟨x, hx, hfx⟩ := List.mem_map.mp hr
  by_cases hp : (x.id == rideId) = true
  · rw [if_pos hp] at hfx
    rw [← hfx]
  · rw [if_neg hp] at hfx
    subst hfx
    exact absurd (by simpa using hid) hp

/-! ## Claim theorems -/

/-- C1: the spec asserts that for a regular ride `calculateAndStore` returns a
`FareBreakdown` whose components follow the Regular formulas and that the
scenario base 50, 12/km, 10 km, surge ×1, no deadhead, platform fee 10 totals
139.9.  The formulas are indeed what the code attempts, and `regularFareSpecTotal`
evaluates to 139.9 on that scenario — but `calculateRegularFare` reads the
`const` bindings `validBaseFare` (line 388) and `gstOnPlatformFee` (line 423)
before their declarations (lines 408-413 and 429), which under ECMAScript
block-scoping semantics throws a `ReferenceError` before any breakdown is
produced, so `calculateAndStoreTripFare` reports failure instead of the
claimed breakdown: the claim is right about the intent and the code is
broken. -/
theorem regularFare_c1_tdz_code_bug :
    calculateRegularFare distZero [fmSedan] "sedan" 10 0 0 [] =
      Except.error tdzReferenceError ∧
    (calculateAndStoreTripFare distZero 0 storeC1 "ride-1" 10 25 0 0 0 0).1 =
      { success := false, fareBreakdown := none, error := some tdzReferenceError } ∧
    regularFareSpecTotal 50 12 10 1 0 10 = 139.9 := by
  refine ⟨?_, ?_, ?_⟩
  · norm_num [calculateRegularFare, fmSedan, firstByLatest, List.filter]
  · norm_num [calculateAndStoreTripFare, storeC1, baseRide, calculateRegularFare, fmSedan,
      firstByLatest, List.filter, List.find?]
  · norm_num [regularFareSpecTotal]

/-- C6: deadhead calculation.  With no zone whose (lower-cased) name contains
"inner" or "ring" among the active zones handed to the calculator, the
deadhead charge is 0; with such a zone, a drop point whose distance `d` to the
zone center satisfies `d ≤ radius_km` (boundary included) is charged 0, and a
drop point with `d > radius_km` is charged `((d - radius_km) / 2) * per_km_rate`. -/
theorem deadheadCharges_c6 (dist : ℚ → ℚ → ℚ → ℚ → ℚ) (dropLat dropLng rate : ℚ)
    (zones : List Zone) :
    (zones.find? (fun z => isInnerZoneName z.name) = none →
      (calculateDeadheadCharges dist dropLat dropLng rate zones).deadheadCharges = 0) ∧
    ∀ z, zones.find? (fun z => isInnerZoneName z.name) = some z →
      (dist dropLat dropLng z.center_latitude z.center_longitude ≤ z.radius_km →
        (calculateDeadheadCharges dist dropLat dropLng rate zones).deadheadCharges = 0) ∧
      (z.radius_km < dist dropLat dropLng z.center_latitude z.center_longitude →
        (calculateDeadheadCharges dist dropLat dropLng rate zones).deadheadCharges =
          ((dist dropLat dropLng z.center_latitude z.center_longitude - z.radius_km) / 2)
            * rate) := by
  constructor
  · intro h
    simp [calculateDeadheadCharges, h]
  · intro z hz
    constructor
    · intro hle
      simp [calculateDeadheadCharges, hz, hle]
    · intro hgt
      simp [calculateDeadheadCharges, hz, not_le.mpr hgt]

/-- Witness for C6 at the boundary scenario of the spec: the drop point sits
exactly on the inner-zone boundary (distance to center = radius = 5 km) and
the deadhead charge is 0. -/
theorem deadheadCharges_c6_witness :
    ([zoneInner].find? (fun z => isInnerZoneName z.name) = some zoneInner) ∧
    distFive 0 0 zoneInner.center_latitude zoneInner.center_longitude = zoneInner.radius_km ∧
    (calculateDeadheadCharges distFive 0 0 12 [zoneInner]).deadheadCharges = 0 :=
  ⟨by decide, rfl,
    ((deadheadCharges_c6 distFive 0 0 12 [zoneInner]).2 zoneInner (by decide)).1 le_rfl⟩

/-- C4 counterexample: the claim says that on a ride that is no longer
"requested" `notifyForRide` returns success *with driversFound = 0 and
notificationsSent = 0*.  On a store whose ride is already accepted the
response is the bare success message (`notRequested`), which carries no
`drivers_found`/`notifications_sent` fields at all — it is not the
`dispatched 0 0` response the claim describes. -/
theorem notify_noop_c4_counterexample :
    (handleNotifyDrivers distZero 0 storeC4 "ride-1").1 = NotifyResponse.notRequested ∧
    (handleNotifyDrivers distZero 0 storeC4 "ride-1").1 ≠ NotifyResponse.dispatched 0 0 := by
  exact ⟨by decide, by decide⟩

/-- C4 as amended: for every ride whose status is not "requested",
`handleNotifyDrivers` returns the bare success no-op response (no
driver/notification counts) and performs no writes — the store is returned
unchanged. -/
theorem notify_noop_c4_amended (dist : ℚ → ℚ → ℚ → ℚ → ℚ) (now : ℤ)
    (store : DispatchStore) (rideId : String) (ride : Ride)
    (hfind : store.rides.find? (fun r => r.id == rideId) = some ride)
    (hst : ride.status ≠ "requested") :
    handleNotifyDrivers dist now store rideId = (NotifyResponse.notRequested, store) := by
  unfold handleNotifyDrivers
  rw [hfind]
  dsimp only
  rw [if_pos (show (ride.status != "requested") = true from by simpa [bne_iff_ne] using hst)]

/-- Witness for C4 at the concrete already-accepted ride. -/
theorem notify_noop_c4_witness :
    (storeC4.rides.find? (fun r => r.id == "ride-1") =
      some { baseRide with status := "accepted", driver_id := some "drv-9" }) ∧
    handleNotifyDrivers distZero 0 storeC4 "ride-1" = (NotifyResponse.notRequested, storeC4) :=
  ⟨by decide,
   notify_noop_c4_amended distZero 0 storeC4 "ride-1"
     { baseRide with status := "accepted", driver_id := some "drv-9" }
     (by decide) (by decide)⟩

/-- C9 counterexample: the claim says no operation that mutates a ride's
status ever performs a backward transition (other than to "cancelled").  The
generic status-update operation applies any requested status unconditionally:
on a store whose ride is already "completed", requesting "requested" moves the
ride backwards (rank 0 < rank 4) to a status that is not "cancelled". -/
theorem updateRideStatus_c9_counterexample :
    rideC9.status = "completed" ∧
    (handleUpdateRideStatus storeC9 "ride-9" "requested" none).2.rides =
      [{ rideC9 with status := "requested" }] ∧
    statusRank "requested" < statusRank "completed" ∧
    "requested" ≠ "cancelled" := by
  refine ⟨rfl, by decide, by decide, by decide⟩

/-- C9 as amended: `handleUpdateRideStatus` performs whatever transition is
requested, with no monotonicity guard — after the call, every ride row with
the requested id carries exactly the requested status, whatever its previous
status was (so backward transitions are possible; only `handleAcceptRide`
guards its own requested-to-accepted transition). -/
theorem updateRideStatus_c9_amended (store : DispatchStore) (rideId status : String)
    (driverId : Option String) :
    ∀ r ∈ (handleUpdateRideStatus store rideId status driverId).2.rides,
      r.id = rideId → r.status = status := by
  intro r hr hid
  unfold handleUpdateRideStatus at hr
  dsimp only at hr
  cases hfind : (setRideStatus store.rides rideId status).find? (fun r => r.id == rideId) with
  | none =>
    rw [hfind] at hr
    dsimp only at hr
    have himg : (if (r.id == rideId) = true then { r with status := status } else r) ∈
        setRideStatus store.rides rideId status := by
      unfold setRideStatus
      exact List.mem_map_of_mem _ hr
    rw [if_pos (show (r.id == rideId) = true from by simpa using hid)] at himg
    have := List.find?_eq_none.mp hfind _ himg
    exact absurd (by simpa using hid) this
  | some u =>
    rw [hfind] at hr
    dsimp only at hr
    exact setRideStatus_status hr hid

/-- Witness for C9: on the concrete completed ride, the requested status
"in_progress" is applied verbatim. -/
theorem updateRideStatus_c9_witness :
    ({ rideC9 with status := "in_progress" } ∈
      (handleUpdateRideStatus storeC9 "ride-9" "in_progress" none).2.rides) ∧
    ({ rideC9 with status := "in_progress" } : Ride).status = "in_progress" :=
  ⟨by decide,
   updateRideStatus_c9_amended storeC9 "ride-9" "in_progress" none
     { rideC9 with status := "in_progress" } (by decide) rfl⟩

/-- C10: if the store refuses the `trip_completions` insert,
`calculateAndStoreTripFare` returns an unsuccessful result (it does not
throw), and the whole store — in particular the parent ride row with its
`fare_amount`, `distance_km`, `duration_minutes` — is left unchanged, because
the ride update is only issued after a successful insert. -/
theorem fareInsertFailure_c10 (dist : ℚ → ℚ → ℚ → ℚ → ℚ) (now : ℤ)
    (store : FareStore) (rideId : String) (d dur pLat pLng dLat dLng : ℚ)
    (hfail : store.completionInsertFails = true) :
    ∃ msg : Option String,
      calculateAndStoreTripFare dist now store rideId d dur pLat pLng dLat dLng =
        ({ success := false, fareBreakdown := none, error := msg }, store) := by
  unfold calculateAndStoreTripFare
  cases hfind : store.rides.find? (fun r => r.id == rideId) with
  | none => exact ⟨some "Ride not found", rfl⟩
  | some ride =>
    dsimp only
    cases hcomp : (if ride.booking_type == "regular" then
        calculateRegularFare dist store.fare_matrix ride.vehicle_type d dLat dLng
          (store.zones.filter (fun z => z.is_active))
      else if ride.booking_type == "rental" then
        calculateRentalFare store.rental_fares ride.vehicle_type d dur
          (ride.selected_hours.getD 4)
      else if ride.booking_type == "outstation" then
        calculateOutstationFare store.outstation_fares ride.vehicle_type d dur
          ride.scheduled_time now
      else if ride.booking_type == "airport" then
        calculateAirportFare dist store.airport_fares ride.vehicle_type pLat pLng dLat dLng
      else Except.error "Invalid booking type") with
    | error e =>
      dsimp only
      exact ⟨some e, rfl⟩
    | ok fb =>
      dsimp only
      rw [if_pos hfail]
      exact ⟨some "Failed to store trip completion", rfl⟩

/-- Witness for C10: the concrete outstation scenario — the fare computation
succeeds (the reported error is the completion-insert failure itself), the
result is unsuccessful, and the store is untouched. -/
theorem fareInsertFailure_c10_witness :
    storeC10.completionInsertFails = true ∧
    (∃ msg : Option String,
      calculateAndStoreTripFare distZero 0 storeC10 "ride-10" 120 200 0 0 0 0 =
        ({ success := false, fareBreakdown := none, error := msg }, storeC10)) ∧
    (calculateAndStoreTripFare distZero 0 storeC10 "ride-10" 120 200 0 0 0 0).1.error =
      some "Failed to store trip completion" := by
  refine ⟨rfl, fareInsertFailure_c10 distZero 0 storeC10 "ride-10" 120 200 0 0 0 0 rfl, ?_⟩
  norm_num [calculateAndStoreTripFare, storeC10, rideC10, baseRide, calculateOutstationFare,
    osSedan, firstByLatest, jsCeil, List.filter, List.find?]
  decide

/-- C2: race-safe acceptance.  `handleAcceptRide` is one conditional update
matching only rows with the given id that are still "requested" and
unassigned.  On a store where the ride is requested and unassigned, for any
two accept calls (any interleaving of the two atomic updates is one of the two
sequential orders, and this statement quantifies over both drivers, so it
covers both orders): the first call succeeds, the second returns Conflict
leaving the store untouched, and afterwards every row with that ride id is
assigned to the first driver — no reachable state assigns the ride to two
different drivers. -/
theorem handleAcceptRide_race (store : DispatchStore) (rideId d1 d2 : String)
    (hex : ∃ r ∈ store.rides, r.id = rideId)
    (hall : ∀ r ∈ store.rides, r.id = rideId →
      r.status = "requested" ∧ r.driver_id = none) :
    ∃ r1 s1,
      handleAcceptRide store rideId d1 = (AcceptResponse.accepted r1, s1) ∧
      handleAcceptRide s1 rideId d2 = (AcceptResponse.conflict, s1) ∧
      ∀ r ∈ s1.rides, r.id = rideId →
        r.driver_id = some d1 ∧ r.status = "accepted" := by
  obtain ⟨r0, hr0mem, hr0id⟩ := hex
  have hpred0 : acceptPred rideId r0 = true := by
    obtain ⟨hs, hd⟩ := hall r0 hr0mem hr0id
    simp [acceptPred, hr0id, hs, hd]
  cases hfil : store.rides.filter (acceptPred rideId) with
  | nil =>
    exfalso
    have hmem : r0 ∈ store.rides.filter (acceptPred rideId) :=
      List.mem_filter.mpr ⟨hr0mem, hpred0⟩
    rw [hfil] at hmem
    exact absurd hmem (List.not_mem_nil r0)
  | cons rh rt =>
    set rides1 := store.rides.map (fun x =>
      if acceptPred rideId x then { x with driver_id := some d1, status := "accepted" }
      else x) with hrides1
    have hkey : ∀ r ∈ rides1, r.id = rideId →
        r.driver_id = some d1 ∧ r.status = "accepted" := by
      intro r hr hrid
      rw [hrides1] at hr
      obtain ⟨x, hx, hfx⟩ := List.mem_map.mp hr
      by_cases hp : acceptPred rideId x = true
      · rw [if_pos hp] at hfx
        rw [← hfx]
        exact ⟨rfl, rfl⟩
      · rw [if_neg hp] at hfx
        subst hfx
        obtain ⟨hs, hd⟩ := hall x hx hrid
        exact absurd (by simp [acceptPred, hrid, hs, hd]) hp
    have hfil2 : rides1.filter (acceptPred rideId) = [] := by
      cases hfil2 : rides1.filter (acceptPred rideId) with
      | nil => rfl
      | cons y ys =>
        exfalso
        have hy : y ∈ rides1.filter (acceptPred rideId) := by
          rw [hfil2]; exact List.mem_cons_self y ys
        obtain ⟨hymem, hyp⟩ := List.mem_filter.mp hy
        have hyid : y.id = rideId := by
          simp only [acceptPred, Bool.and_eq_true, beq_iff_eq] at hyp
          exact hyp.1.1
        have hacc := (hkey y hymem hyid).2
        simp [acceptPred, hacc] at hyp
    refine ⟨{ rh with driver_id := some d1, status := "accepted" },
      { store with
          rides := rides1
          drivers := store.drivers.map (fun d =>
            if d.id == d1 then { d with status := "busy" } else d) },
      ?_, ?_, hkey⟩
    · unfold handleAcceptRide
      rw [hfil]
    · unfold handleAcceptRide
      have hproj : ({ store with
          rides := rides1
          drivers := store.drivers.map (fun d =>
            if d.id == d1 then { d with status := "busy" } else d) } :
          DispatchStore).rides = rides1 := rfl
      rw [hproj, hfil2]

/-- Witness for C2: on the concrete store with one requested unassigned ride,
the first accept wins, the second conflicts, and the ride stays with the first
driver. -/
theorem handleAcceptRide_race_witness :
    (∃ r ∈ storeC2.rides, r.id = "ride-1") ∧
    ∃ r1 s1,
      handleAcceptRide storeC2 "ride-1" "drv-a" = (AcceptResponse.accepted r1, s1) ∧
      handleAcceptRide s1 "ride-1" "drv-b" = (AcceptResponse.conflict, s1) ∧
      ∀ r ∈ s1.rides, r.id = "ride-1" →
        r.driver_id = some "drv-a" ∧ r.status = "accepted" :=
  ⟨⟨baseRide, by simp [storeC2], rfl⟩,
   handleAcceptRide_race storeC2 "ride-1" "drv-a" "drv-b"
     ⟨baseRide, by simp [storeC2], rfl⟩
     (by
       intro r hr hid
       rcases List.mem_singleton.mp hr with rfl
       exact ⟨rfl, rfl⟩)⟩

/-- C5: outstation fare policy.  Whenever an active configuration row `c` is
selected for the vehicle type, the computed breakdown has
`driver_allowance = days * driver_allowance_per_day`,
`distance_fare = daily_km_limit * days * per_km_rate` when the round-trip
distance `2 * actualDistanceKm` is within `daily_km_limit * days` and
`(2 * actualDistanceKm) * per_km_rate` (all-or-nothing, not marginal)
otherwise, and `total_fare = base_fare + distance_fare + driver_allowance`,
with `days = outstationDays scheduled_time now`. -/
theorem outstationFare_policy_c5 (tbl : List OutstationFare) (vt : String)
    (d dur : ℚ) (sched : Option ℤ) (now : ℤ) (c : OutstationFare)
    (hsel : firstByLatest (fun r => r.created_at)
      (tbl.filter (fun r => r.vehicle_type == vt && r.is_active)) = some c) :
    ∃ fb, calculateOutstationFare tbl vt d dur sched now = Except.ok fb ∧
      fb.driver_allowance = ((outstationDays sched now : ℤ) : ℚ) * c.driver_allowance_per_day ∧
      fb.distance_fare =
        (if d * 2 ≤ c.daily_km_limit * ((outstationDays sched now : ℤ) : ℚ)
         then c.daily_km_limit * ((outstationDays sched now : ℤ) : ℚ) * c.per_km_rate
         else d * 2 * c.per_km_rate) ∧
      fb.total_fare = c.base_fare + fb.distance_fare + fb.driver_allowance := by
  unfold calculateOutstationFare
  dsimp only
  rw [hsel]
  dsimp only
  exact ⟨_, rfl, rfl, rfl, rfl⟩

/-- Witness for C5 at the spec's example: daily limit 300 km, one day, 120 km
one-way ⇒ round trip 240 ≤ 300, so the distance charge is the full included
300 km at 12/km (3600, not 240 × 12 = 2880), and the total is
500 + 3600 + 300 = 4400. -/
theorem outstationFare_policy_c5_witness :
    (firstByLatest (fun r => r.created_at)
      (([osSedan] : List OutstationFare).filter
        (fun r => r.vehicle_type == "sedan" && r.is_active)) = some osSedan) ∧
    (∃ fb, calculateOutstationFare [osSedan] "sedan" 120 200 none 0 = Except.ok fb ∧
      fb.driver_allowance = ((outstationDays none 0 : ℤ) : ℚ) * osSedan.driver_allowance_per_day ∧
      fb.distance_fare =
        (if (120 : ℚ) * 2 ≤ osSedan.daily_km_limit * ((outstationDays none 0 : ℤ) : ℚ)
         then osSedan.daily_km_limit * ((outstationDays none 0 : ℤ) : ℚ) * osSedan.per_km_rate
         else (120 : ℚ) * 2 * osSedan.per_km_rate) ∧
      fb.total_fare = osSedan.base_fare + fb.distance_fare + fb.driver_allowance) ∧
    (calculateOutstationFare [osSedan] "sedan" 120 200 none 0).toOption.map
      (fun fb => fb.distance_fare) = some 3600 ∧
    (calculateOutstationFare [osSedan] "sedan" 120 200 none 0).toOption.map
      (fun fb => fb.total_fare) = some 4400 := by
  refine ⟨by decide,
    outstationFare_policy_c5 [osSedan] "sedan" 120 200 none 0 osSedan (by decide), ?_, ?_⟩
  · norm_num [calculateOutstationFare, osSedan, firstByLatest, jsCeil, List.filter]
    exact ⟨_, rfl, rfl⟩
  · norm_num [calculateOutstationFare, osSedan, firstByLatest, jsCeil, List.filter]
    exact ⟨_, rfl, rfl⟩

/-- C7: recency exclusion.  If the most recent location sample `m` of user `u`
(every sample of `u` is at most as new as `m`) is older than the 15-minute
recency threshold at query time, then `handleFindNearbyDrivers` never returns
an entry for `u`, regardless of how close any of the samples is to the
pickup point. -/
theorem findNearby_recency_c7 (dist : ℚ → ℚ → ℚ → ℚ → ℚ) (now : ℤ)
    (drivers : List Driver) (liveLocations : List LiveLocation)
    (pickupLat pickupLng : ℚ) (vehicleType : String) (radiusKm : ℚ)
    (u : String) (m : LiveLocation)
    (hmu : m.user_id = u)
    (hmax : ∀ loc ∈ liveLocations, loc.user_id = u → loc.updated_at ≤ m.updated_at)
    (hstale : now - m.updated_at > 15 * 60 * 1000) :
    ∀ x ∈ handleFindNearbyDrivers dist now drivers liveLocations pickupLat pickupLng
        vehicleType radiusKm, x.user_id ≠ u := by
  intro x hx hxu
  unfold handleFindNearbyDrivers at hx
  dsimp only at hx
  rw [mem_sortByDistance] at hx
  obtain ⟨driver, hdmem, hf⟩ := List.mem_filterMap.mp hx
  cases hL : latestLocationFirst
      (liveLocations.filter (fun l =>
        (drivers.filter (fun d => d.status == "online" && d.is_verified)).any
          (fun d => d.user_id == l.user_id)))
      driver.user_id with
  | none =>
    rw [hL] at hf
    simp at hf
  | some loc =>
    rw [hL] at hf
    dsimp only at hf
    by_cases hage : now - loc.updated_at > 15 * 60 * 1000
    · rw [if_pos hage] at hf
      simp at hf
    · rw [if_neg hage] at hf
      have hxdu : x.user_id = driver.user_id := by
        by_cases hveh : (vehicleType != "any" && !vehicleTypeMatches driver vehicleType) = true
        · rw [if_pos hveh] at hf
          simp at hf
        · rw [if_neg hveh] at hf
          by_cases hrad : dist pickupLat pickupLng loc.latitude loc.longitude ≤ radiusKm
          · rw [if_pos hrad] at hf
            cases hf
            rfl
          · rw [if_neg hrad] at hf
            simp at hf
      have hdu : driver.user_id = u := by rw [← hxdu]; exact hxu
      obtain ⟨hlocmem, hlocuid⟩ := latestLocationFirst_mem hL
      have hlm : loc ∈ liveLocations := (List.mem_filter.mp hlocmem).1
      have hle : loc.updated_at ≤ m.updated_at := hmax loc hlm (hlocuid.trans hdu)
      omega

/-- Witness for C7: the concrete driver whose only sample is 1000 seconds old
at query time is excluded (in particular the entry it would otherwise produce
is absent), even though the sample lies exactly at the pickup point. -/
theorem findNearby_recency_c7_witness :
    ((1000000 : ℤ) - locC7.updated_at > 15 * 60 * 1000) ∧
    ndC7 ∉ handleFindNearbyDrivers distZero 1000000 [driverC7] [locC7] 0 0 "any" 15 :=
  ⟨by decide,
   fun h =>
     findNearby_recency_c7 distZero 1000000 [driverC7] [locC7] 0 0 "any" 15
       "user-7" locC7 rfl
       (fun loc hl _ => by
         rcases List.mem_singleton.mp hl with rfl
         exact le_refl _)
       (by decide) ndC7 h rfl⟩

/-- C8 counterexample: the claim says the result list is *strictly* sorted by
`distance_km`, with no two entries sharing a distance.  Two online verified
drivers standing at the pickup point itself both get `distance_km = 0` (the
Haversine distance between coincident points is exactly 0), so the result
carries the duplicate distances [0, 0] and is not strictly sorted. -/
theorem findNearby_strictSort_c8_counterexample :
    ((handleFindNearbyDrivers distZero 0 driversC8 locationsC8 0 0 "any" 15).map
      (fun x => x.distance_km)) = [0, 0] ∧
    ¬ ((handleFindNearbyDrivers distZero 0 driversC8 locationsC8 0 0 "any" 15).map
      (fun x => x.distance_km)).Pairwise (· < ·) := by
  have heval : ((handleFindNearbyDrivers distZero 0 driversC8 locationsC8 0 0 "any" 15).map
      (fun x => x.distance_km)) = [0, 0] := by
    norm_num [handleFindNearbyDrivers, driversC8, locationsC8, distZero, latestLocationFirst,
      vehicleTypeMatches, jsRound, sortByDistance, insertByDistance, List.filter,
      List.filterMap, List.find?]
  refine ⟨heval, ?_⟩
  intro h
  rw [heval] at h
  rcases List.pairwise_cons.mp h with ⟨h1, _⟩
  exact absurd (h1 0 (List.mem_singleton.mpr rfl)) (lt_irrefl 0)

/-- C8 as amended: the result of `handleFindNearbyDrivers` is sorted ascending
(non-strictly — coincident rounded distances may tie) by `distance_km`, and
each entry's `distance_km` is the computed distance to one of the input
location samples rounded to one decimal place. -/
theorem findNearby_sorted_c8_amended (dist : ℚ → ℚ → ℚ → ℚ → ℚ) (now : ℤ)
    (drivers : List Driver) (liveLocations : List LiveLocation)
    (pickupLat pickupLng : ℚ) (vehicleType : String) (radiusKm : ℚ) :
    ((handleFindNearbyDrivers dist now drivers liveLocations pickupLat pickupLng
        vehicleType radiusKm).map (fun x => x.distance_km)).Pairwise (· ≤ ·) ∧
    ∀ x ∈ handleFindNearbyDrivers dist now drivers liveLocations pickupLat pickupLng
        vehicleType radiusKm,
      ∃ loc ∈ liveLocations,
        x.distance_km =
          ((jsRound (dist pickupLat pickupLng loc.latitude loc.longitude * 10) : ℤ) : ℚ) / 10 := by
  constructor
  · rw [List.pairwise_map]
    unfold handleFindNearbyDrivers
    dsimp only
    exact pairwise_sortByDistance _
  · intro x hx
    unfold handleFindNearbyDrivers at hx
    dsimp only at hx
    rw [mem_sortByDistance] at hx
    obtain ⟨driver, hdmem, hf⟩ := List.mem_filterMap.mp hx
    cases hL : latestLocationFirst
        (liveLocations.filter (fun l =>
          (drivers.filter (fun d => d.status == "online" && d.is_verified)).any
            (fun d => d.user_id == l.user_id)))
        driver.user_id with
    | none =>
      rw [hL] at hf
      simp at hf
    | some loc =>
      rw [hL] at hf
      dsimp only at hf
      by_cases hage : now - loc.updated_at > 15 * 60 * 1000
      · rw [if_pos hage] at hf
        simp at hf
      · rw [if_neg hage] at hf
        by_cases hveh : (vehicleType != "any" && !vehicleTypeMatches driver vehicleType) = true
        · rw [if_pos hveh] at hf
          simp at hf
        · rw [if_neg hveh] at hf
          by_cases hrad : dist pickupLat pickupLng loc.latitude loc.longitude ≤ radiusKm
          · rw [if_pos hrad] at hf
            obtain ⟨hlocmem, _⟩ := latestLocationFirst_mem hL
            refine ⟨loc, (List.mem_filter.mp hlocmem).1, ?_⟩
            cases hf
            rfl
          · rw [if_neg hrad] at hf
            simp at hf

/-- Witness for C8: the amended sortedness and rounding facts at the concrete
two-driver scenario. -/
theorem findNearby_sorted_c8_amended_witness :
    (ndC8 ∈ handleFindNearbyDrivers distZero 0 driversC8 locationsC8 0 0 "any" 15) ∧
    ∃ loc ∈ locationsC8,
      ndC8.distance_km =
        ((jsRound (distZero 0 0 loc.latitude loc.longitude * 10) : ℤ) : ℚ) / 10 :=
  ⟨by
    norm_num [handleFindNearbyDrivers, driversC8, locationsC8, distZero, latestLocationFirst,
      vehicleTypeMatches, jsRound, sortByDistance, insertByDistance, ndC8, List.filter,
      List.filterMap, List.find?],
   (findNearby_sorted_c8_amended distZero 0 driversC8 locationsC8 0 0 "any" 15).2 ndC8
     (by
       norm_num [handleFindNearbyDrivers, driversC8, locationsC8, distZero, latestLocationFirst,
         vehicleTypeMatches, jsRound, sortByDistance, insertByDistance, ndC8, List.filter,
         List.filterMap, List.find?])⟩

/-- C3 (code bug): the spec says dispatch discards drivers whose vehicle type
does not match the ride's.  The standalone search (`handleFindNearbyDrivers`)
does filter by vehicle type, but `findNearbyDrivers` in the dispatch path
accepts its `vehicleType` argument and never uses it, so `handleNotifyDrivers`
notifies drivers regardless of vehicle: on a store with a requested *sedan*
ride and one nearby online verified *hatchback* driver, a notification row for
that driver is created. -/
theorem notifyDrivers_vehicleType_c3_code_bug :
    baseRide.vehicle_type = "sedan" ∧
    driverC3.vehicle_type = some "hatchback" ∧
    (some "hatchback" : Option String) ≠ some "sedan" ∧
    (handleNotifyDrivers distZero 0 storeC3 "ride-1").2.notifications =
      [{ user_id := "user-3", type := "ride_request", ride_id := "ride-1",
         ride_vehicle_type := "sedan", distance := 0 }] := by
  refine ⟨rfl, rfl, by decide, ?_⟩
  norm_num [handleNotifyDrivers, storeC3, baseRide, driverC3, locC3, findNearbyDrivers,
    latestLocationByTime, sendDriverNotification, distZero, List.filter, List.filterMap,
    List.find?, setRideStatus]
